import Mathlib

/-! Verification of the `approve_button` repository: two Slack bots
(`main.py`, the PR approve-button bot, and `sentry_summary/main.py`, the
Sentry performance-report bot) shallowly embedded in Lean.

External effects (Slack `say`, reactions, deletions, HTTP calls, counter
increments) are made explicit: each handler is a pure function from the
inbound event plus an environment describing the outcomes of its external
calls to a record of the effects it performs.  Python `KeyError` on a dict
access is modelled with `Except`.
-/

/-- A Python value stored in a Slack metadata payload: the code only stores
strings (`repository`, `ts`) and ints (`number`). -/
inductive PyVal where
  | vstr (s : String)
  | vnum (n : Nat)
deriving DecidableEq, Repr

/-- How Python renders the value inside an f-string (`str`). -/
def PyVal.fmt : PyVal → String
  | .vstr s => s
  | .vnum n => toString n

/-- A Python exception, as far as the handlers can observe one:
`KeyError` from a dict access, or an exception from an external call,
carrying `type(e).__name__` and `str(e)`. -/
inductive PyExc where
  | keyError (k : String)
  | exc (nm msg : String)
deriving DecidableEq, Repr

/-- The text `action_approve` puts in its failure reply:
`f"{type(e).__name__}: {str(e)}"`; `str` of a `KeyError` is the quoted
key. -/
def PyExc.text : PyExc → String
  | .keyError k => "KeyError: " ++ "\x27" ++ k ++ "\x27"
  | .exc nm msg => nm ++ ": " ++ msg

/-- A Python dict with string keys, as an association list. -/
def Dict : Type := List (String × PyVal)

instance : DecidableEq Dict := by unfold Dict; exact inferInstance

/-- Python dict access `d[k]`, raising `KeyError` when the key is absent. -/
def Dict.getV : Dict → String → Except PyExc PyVal
  | [], k => .error (.keyError k)
  | (k', v) :: rest, k => if k' = k then .ok v else Dict.getV rest k

/-- The Workflow Context of the spec: what `main.py` stores in the offer
message's metadata (lines 103-110) and reads back in `action_approve`. -/
structure WorkflowCtx where
  repository : String
  number : Nat
  ts : String
deriving DecidableEq, Repr

/-- Slack message metadata: `event_type` plus `event_payload`. -/
structure MessageMetadata where
  event_type : String
  event_payload : Dict
deriving DecidableEq

/-- The `metadata=` argument `message_url` passes to `say`
(main.py lines 103-110). -/
def encodeCtx (c : WorkflowCtx) : MessageMetadata :=
  { event_type := "approve_offer",
    event_payload :=
      [("repository", .vstr c.repository),
       ("number", .vnum c.number),
       ("ts", .vstr c.ts)] }

/-- The reads `action_approve` performs on the payload
(`metadata['repository']`, `metadata['number']`, `metadata['ts']`),
assembled into a decoder: any missing field is a `KeyError`, a value of
the wrong shape a `TypeError`. -/
def decodeCtx (md : MessageMetadata) : Except PyExc WorkflowCtx := do
  let r ← md.event_payload.getV "repository"
  let n ← md.event_payload.getV "number"
  let t ← md.event_payload.getV "ts"
  match r, n, t with
  | .vstr rs, .vnum nn, .vstr tss => .ok ⟨rs, nn, tss⟩
  | _, _, _ => .error (.exc "TypeError" "unexpected payload field type")

/-! Section: diff rendering (main.py lines 61-72). -/

/-- The test `line[:1] in ("+", "-")`: the first character is `+` or `-`. -/
def isChangedLine (l : String) : Bool :=
  match l.data with
  | [] => false
  | c :: _ => c = '+' || c = '-'

/-- Python `str.split(sep)` for a one-character separator, on character
lists; always returns at least one piece. -/
def splitOnChar (sep : Char) : List Char → List (List Char)
  | [] => [[]]
  | c :: rest =>
    let r := splitOnChar sep rest
    if c = sep then [] :: r else (c :: r.headI) :: r.tail

/-- The comprehension
`[line for line in response.text.split("\n") if line[:1] in ("+", "-")]`. -/
def changedLines (t : String) : List String :=
  ((splitOnChar '\n' t.data).map String.mk).filter isChangedLine

/-- Lines 62-64: keep the changed lines; when more than 8, the first 8
followed by the ellipsis marker. -/
def truncDiffLines (t : String) : List String :=
  let dl := changedLines t
  if dl.length > 8 then dl.take 8 ++ ["..."] else dl

/-- Line 65: the text of the rendered code block, between the backticks. -/
def renderDiffText (t : String) : String :=
  String.intercalate "\n" (truncDiffLines t)

/-! Section: Slack display blocks. -/

/-- The display blocks both bots build. -/
inductive Block where
  | sec (text : String)
  | secPlain (text : String)
  | buttonActions (actionId : String) (label : String)
  | divider
  | fieldsSec (fields : List String)
deriving DecidableEq, Repr

/-! Section: the PR-link trigger (main.py line 45 and lines 49-53).

`pr_re = re.compile("https://github.com/(athenianco/[^/]+)/pull/(\d+)")`
and `pr_re.finditer(message["text"])`: leftmost, non-overlapping matches.
The pattern is backtracking-free: `[^/]+` is a maximal run of non-`/`
characters (shortening it leaves `/` unmatched), `\d+` a maximal digit
run, so the scan below is its exact semantics. -/

/-- The literal the pattern requires up to and including the owner. -/
def prLit : List Char := "https://github.com/athenianco/".data

/-- The literal between the repository name and the number. -/
def pullLit : List Char := "/pull/".data

/-- Strip a literal from the front of the input, or fail. -/
def dropLit : List Char → List Char → Option (List Char)
  | [], l => some l
  | _ :: _, [] => none
  | p :: ps, c :: cs => if c = p then dropLit ps cs else none

/-- One `pr_re` match: `group(1)` and `int(group(2))`. -/
structure PrMatch where
  repo : String
  number : Nat
deriving DecidableEq, Repr

/-- Python `int` of a nonempty digit string. -/
def natOfDigits (ds : List Char) : Nat :=
  ds.foldl (fun acc c => acc * 10 + (c.toNat - '0'.toNat)) 0

/-- Attempt a `pr_re` match anchored at the front of the input; on success
return the match and the rest of the input after it. -/
def tryPrMatch (l : List Char) : Option (PrMatch × List Char) :=
  match dropLit prLit l with
  | none => none
  | some r1 =>
    let repoRest := r1.takeWhile (fun c => c ≠ '/')
    if repoRest.isEmpty then none
    else
      match dropLit pullLit (r1.drop repoRest.length) with
      | none => none
      | some r2 =>
        let digits := r2.takeWhile Char.isDigit
        if digits.isEmpty then none
        else
          some ({ repo := "athenianco/" ++ String.mk repoRest,
                  number := natOfDigits digits },
                r2.drop digits.length)

/-- The `finditer` scan: try at every position left to right, resuming after the end
of each match.  Fuel is the input length; the scan consumes at least one
character per step so the fuel never runs out early. -/
def findPrMatchesAux : Nat → List Char → List PrMatch
  | 0, _ => []
  | _ + 1, [] => []
  | n + 1, c :: rest =>
    match tryPrMatch (c :: rest) with
    | some (m, remaining) => m :: findPrMatchesAux n remaining
    | none => findPrMatchesAux n rest

/-- All non-overlapping `pr_re` matches in a message text. -/
def findPrMatches (t : String) : List PrMatch :=
  findPrMatchesAux t.data.length t.data

/-! Section: the offer flow (main.py lines 49-112). -/

/-- An HTTP response as the handlers observe it (`response.ok`,
`response.text`). -/
structure HttpResp where
  ok : Bool
  text : String
deriving DecidableEq

/-- One offer message: the `say(...)` call of main.py lines 76-111. -/
structure OfferMsg where
  blocks : List Block
  text : String
  metadata : MessageMetadata
deriving DecidableEq

/-- Effects of one `message_url` invocation. -/
structure PrBotEffects where
  offers : List OfferMsg
  sentInc : Nat
deriving DecidableEq

/-- The loop body of `message_url` for one match: fetch the diff (the
environment `fetch` gives the GitHub response for a repo and number),
render it when `response.ok`, and build the offer message. -/
def mkOffer (ts : String) (fetch : String → Nat → HttpResp) (m : PrMatch) :
    OfferMsg :=
  let resp := fetch m.repo m.number
  let diff : List Block :=
    if resp.ok then [Block.sec ("```" ++ renderDiffText resp.text ++ "```")]
    else []
  { blocks :=
      [Block.sec ("Approve this PR? *" ++ m.repo ++ "#" ++ toString m.number
         ++ "*"),
       Block.buttonActions "approve" "Approve"] ++ diff,
    text := "Approve this PR? " ++ m.repo ++ "#" ++ toString m.number,
    metadata := encodeCtx ⟨m.repo, m.number, ts⟩ }

/-- The handler `message_url(message, say)`: one offer and one `sent_count.inc()` per
`pr_re` match in the message text; `ts` is `message["ts"]`. -/
def message_url (text ts : String) (fetch : String → Nat → HttpResp) :
    PrBotEffects :=
  { offers := (findPrMatches text).map (mkOffer ts fetch),
    sentInc := (findPrMatches text).length }

/-- The bolt dispatch `@bolt_app.message(pr_re)`: the handler only runs
when `pr_re` matches the text at all. -/
def handle_pr_message (text ts : String) (fetch : String → Nat → HttpResp) :
    PrBotEffects :=
  if (findPrMatches text).isEmpty then { offers := [], sentInc := 0 }
  else message_url text ts fetch

/-! Section: the approve callback (main.py lines 115-160). -/

/-- The `body["message"]` dict: the offer message the button lives on.  `metadata`
is `none` when the message carries no metadata (the dict access then
raises `KeyError`). -/
structure CallbackMessage where
  metadata : Option MessageMetadata
  ts : String
deriving DecidableEq

/-- The callback `body`. -/
structure CallbackBody where
  message : CallbackMessage
  channelId : String
  userId : String
deriving DecidableEq

/-- Outcomes of the external calls `action_approve` makes: the per-user
secret lookup and the review POST.  `Except.error` is a raised exception. -/
structure ApproveEnv where
  getSecret : String → Except PyExc String
  postReview : Except PyExc HttpResp

/-- A `say(...)` reply. -/
structure SlackReply where
  blocks : List Block
  text : String
deriving DecidableEq

/-- Effects of one `action_approve` invocation: replies sent, reactions
added `(channel, timestamp, name)`, messages deleted `(channel, ts)`, and
increments of `approved_count`. -/
structure ApproveEffects where
  replies : List SlackReply
  reactions : List (String × String × String)
  deletions : List (String × String)
  approvedInc : Nat
deriving DecidableEq

/-- The nested `fail(reason)` of lines 121-140.  It reads
`metadata['repository']` and `metadata['number']` itself, so it raises
`KeyError` when those fields are absent. -/
def failReply (payload : Dict) (reason : String) : Except PyExc SlackReply := do
  let r ← payload.getV "repository"
  let n ← payload.getV "number"
  .ok { blocks :=
          [Block.sec ("Failed to approve *" ++ r.fmt ++ "#" ++ n.fmt ++ "*:"),
           Block.secPlain reason],
        text := "Failed to approve *" ++ r.fmt ++ "#" ++ n.fmt ++ "*" }

/-- The `try` block of lines 142-148, in evaluation order: the secret
lookup, then the payload reads that build the POST URL, then the POST
itself.  Every `Except.error` here is an exception the `except` catches. -/
def approveTry (payload : Dict) (body : CallbackBody) (env : ApproveEnv) :
    Except PyExc HttpResp := do
  let _tok ← env.getSecret ("github_token_" ++ body.userId)
  let _r ← payload.getV "repository"
  let _n ← payload.getV "number"
  env.postReview

/-- The handler `action_approve(body, ack, say)`, lines 115-160.  An overall
`Except.error` is an exception escaping the handler. -/
def action_approve (body : CallbackBody) (env : ApproveEnv) :
    Except PyExc ApproveEffects := do
  let payload ← (match body.message.metadata with
    | some md => Except.ok md.event_payload
    | none => Except.error (PyExc.keyError "metadata"))
  match approveTry payload body env with
  | .error e => do
      let r ← failReply payload e.text
      .ok { replies := [r], reactions := [], deletions := [], approvedInc := 0 }
  | .ok resp =>
      if resp.ok then do
        let t ← payload.getV "ts"
        .ok { replies := [],
              reactions := [(body.channelId, t.fmt, "heavy_check_mark")],
              deletions := [(body.channelId, body.message.ts)],
              approvedInc := 1 }
      else do
        let r ← failReply payload resp.text
        .ok { replies := [r], reactions := [], deletions := [],
              approvedInc := 0 }

/-- The failure classification of the approve callback, as the code makes
it: an exception from the secret lookup, else an exception from the POST,
else a non-success status; `some detail` is the reason text `fail`
receives, `none` means the approval succeeded. -/
def approveFailDetail (body : CallbackBody) (env : ApproveEnv) :
    Option String :=
  match env.getSecret ("github_token_" ++ body.userId) with
  | .error e => some e.text
  | .ok _ =>
    match env.postReview with
    | .error e => some e.text
    | .ok r => if r.ok then none else some r.text

/-! Section: the Sentry performance-report bot (sentry_summary/main.py).

Trigger: `@bolt_app.message(re.compile(r"performance|(request.*slow)|(slow.*request)"))`
plus the in-handler check `if "api" not in message["text"]: return`.
`.` in Python `re` does not match a newline and the alternation's literals
contain none, so every match lies within one line of the text. -/

/-- Substring test on character lists. -/
def containsSubList (pat : List Char) : List Char → Bool
  | [] => pat.isEmpty
  | c :: rest => pat.isPrefixOf (c :: rest) || containsSubList pat rest

/-- Python `pat in s`. -/
def strContains (s pat : String) : Bool :=
  containsSubList pat.data s.data

/-- The input after the end of the first occurrence of `pat`, if any. -/
def suffixAfter (pat : List Char) : List Char → Option (List Char)
  | [] => if pat.isEmpty then some [] else none
  | c :: rest =>
    if pat.isPrefixOf (c :: rest) then some ((c :: rest).drop pat.length)
    else suffixAfter pat rest

/-- The pattern `a.*b` within one line: an occurrence of `a` with an occurrence of `b`
at or after its end. -/
def seqMatch (l a b : List Char) : Bool :=
  match suffixAfter a l with
  | some r => containsSubList b r
  | none => false

/-- One line matches `performance|(request.*slow)|(slow.*request)`. -/
def lineMatches (l : List Char) : Bool :=
  containsSubList "performance".data l
    || seqMatch l "request".data "slow".data
    || seqMatch l "slow".data "request".data

/-- The `re.search` of the trigger pattern over the whole text. -/
def triggerMatches (t : String) : Bool :=
  (splitOnChar '\n' t.data).any lineMatches

/-- A `\d+[hd]` match anchored at the front of the input: a maximal
nonempty digit run followed by `h` or `d`.  (Backtracking a shorter digit
run cannot succeed, so maximal is exact.) -/
def tryStatsPeriod (l : List Char) : Option String :=
  let ds := l.takeWhile Char.isDigit
  if ds.isEmpty then none
  else
    match l.drop ds.length with
    | c :: _ => if c = 'h' || c = 'd' then some (String.mk (ds ++ [c])) else none
    | [] => none

/-- The search `stats_period_re.search`: leftmost `\d+[hd]` match. -/
def searchStatsPeriod : List Char → Option String
  | [] => none
  | c :: rest =>
    match tryStatsPeriod (c :: rest) with
    | some m => some m
    | none => searchStatsPeriod rest

/-- Lines 59-62: the extracted time-window token, defaulting to `"24h"`. -/
def extractStatsPeriod (t : String) : String :=
  match searchStatsPeriod t.data with
  | some p => p
  | none => "24h"

/-- A JSON decimal number `mant * 10^(-exp)`, as the Sentry API returns
metric values.  Python's binary-float `"%.3f"` rounding is modelled as
decimal round-half-even. -/
structure DecNum where
  mant : Int
  exp : Nat
deriving DecidableEq

/-- The digits of `k` left-padded with zeros to width `w`. -/
def padZeros (w k : Nat) : String :=
  let s := toString k
  String.mk (List.replicate (w - s.length) '0') ++ s

/-- Round `a / b` (with `b > 0`) to the nearest integer, ties to even. -/
def rhe (a : Int) (b : Nat) : Int :=
  let q := a.ediv b
  let r := a.emod b
  if 2 * r < (b : Int) then q
  else if (b : Int) < 2 * r then q + 1
  else if q % 2 = 0 then q else q + 1

/-- The value in thousandths, rounded ties-to-even. -/
def DecNum.thousandths (v : DecNum) : Int :=
  if v.exp ≤ 3 then v.mant * ((10 : Int) ^ (3 - v.exp))
  else rhe v.mant (10 ^ (v.exp - 3))

/-- Python `"%.3f" % v`. -/
def fmt3 (v : DecNum) : String :=
  let n := v.thousandths
  let m := n.natAbs
  (if n < 0 then "-" else "")
    ++ toString (m / 1000) ++ "." ++ padZeros 3 (m % 1000)

/-- The raw rendering of a value inside the f-string; the two count
fields this reaches are integers (`exp = 0`). -/
def DecNum.raw (v : DecNum) : String :=
  if v.exp = 0 then toString v.mant
  else
    let p : Nat := 10 ^ v.exp
    let m := v.mant.natAbs
    (if v.mant < 0 then "-" else "")
      ++ toString (m / p) ++ "." ++ padZeros v.exp (m % p)

/-- The formatter `format_value(name, value)` (lines 45-50): `float(value) / 1000` is
the exact decimal shift by three places. -/
def format_value (nm : String) (v : DecNum) : String :=
  if nm = "p50()" ∨ nm = "p95()" then fmt3 ⟨v.mant, v.exp + 3⟩ ++ "s"
  else if nm = "failure_rate()" then fmt3 v
  else v.raw

/-- One record of the Sentry query result (`response.json()["data"]`). -/
structure PerfItem where
  transaction : String
  p50 : DecNum
  p95 : DecNum
  failure_rate : DecNum
  count_unique : DecNum
  count : DecNum
deriving DecidableEq

/-- The field text built for one record (lines 90-106); `key.replace("()", "")`
strips the trailing parens of the three function-named keys. -/
def mkPerfField (it : PerfItem) : String :=
  "*`" ++ it.transaction ++ "`*\n" ++ String.intercalate "\n"
    ["*p50:* " ++ format_value "p50()" it.p50,
     "*p95:* " ++ format_value "p95()" it.p95,
     "*failure_rate:* " ++ format_value "failure_rate()" it.failure_rate,
     "*count_unique(user):* " ++ format_value "count_unique(user)" it.count_unique,
     "*count(user):* " ++ format_value "count(user)" it.count]

/-- The query parameters the claims track (`statsPeriod`, `per_page`). -/
structure PerfQuery where
  statsPeriod : String
  limit : Nat
deriving DecidableEq

/-- The Sentry HTTP response: status, body text, decoded `data`. -/
structure SentryResp where
  ok : Bool
  text : String
  data : List PerfItem

/-- One `say(...)` of the report bot. -/
structure SentryMsg where
  blocks : List Block
  text : String
  thread_ts : String
deriving DecidableEq

/-- Effects of one `report_api_performance` invocation: queries issued,
messages sent, increments of `sent_performance_count`. -/
structure SentryEffects where
  queries : List PerfQuery
  msgs : List SentryMsg
  reportsInc : Nat
deriving DecidableEq

/-- The header text of lines 112-115 (the join of the two source lines
leaves a double space before `sorted`). -/
def perfHeaderText (sp : String) (limit : Nat) : String :=
  "API performance report from Sentry, last " ++ sp
    ++ ",  sorted by p95 descending, limit " ++ toString limit

/-- The handler `report_api_performance(message, say)` (lines 54-136); `ts` is
`message["ts"]`, `threadTs` is `message.get("thread_ts")`, `query` gives
the Sentry response for the issued query. -/
def report_api_performance (text ts : String) (threadTs : Option String)
    (query : PerfQuery → SentryResp) : SentryEffects :=
  if strContains text "api" = false then
    { queries := [], msgs := [], reportsInc := 0 }
  else
    let thread := threadTs.getD ts
    let q : PerfQuery := { statsPeriod := extractStatsPeriod text, limit := 20 }
    let resp := query q
    if resp.ok = false then
      { queries := [q],
        msgs := [{ blocks := [],
                   text := if resp.text = "" then "<empty response>" else resp.text,
                   thread_ts := thread }],
        reportsInc := 0 }
    else
      let fields := resp.data.map mkPerfField
      let firstMsg : SentryMsg :=
        { blocks := [Block.sec (perfHeaderText q.statsPeriod 20), Block.divider,
                     Block.fieldsSec (fields.take 10)],
          text := perfHeaderText q.statsPeriod 20,
          thread_ts := thread }
      let chunkMsgs := (List.range' 1 ((fields.length + 9) / 10 - 1)).map
        (fun i =>
          { blocks := [Block.fieldsSec ((fields.drop (i * 10)).take 10)],
            text := "(chunk " ++ toString i ++ ")",
            thread_ts := thread })
      { queries := [q], msgs := firstMsg :: chunkMsgs, reportsInc := 1 }

/-- The bolt dispatch: the handler only runs when the trigger pattern
matches the text. -/
def handle_sentry_message (text ts : String) (threadTs : Option String)
    (query : PerfQuery → SentryResp) : SentryEffects :=
  if triggerMatches text then report_api_performance text ts threadTs query
  else { queries := [], msgs := [], reportsInc := 0 }

/-! Section: theorems. -/

/-- The nested `fail(reason)` on a well-formed payload: the two-block reply. -/
theorem failReply_encode (rep : String) (num : Nat) (tsv reason : String) :
    failReply
        [("repository", .vstr rep), ("number", .vnum num), ("ts", .vstr tsv)]
        reason
      = .ok { blocks :=
                [Block.sec ("Failed to approve *" ++ rep ++ "#"
                   ++ toString num ++ "*:"),
                 Block.secPlain reason],
              text := "Failed to approve *" ++ rep ++ "#"
                ++ toString num ++ "*" } := rfl

/-- C8: encoding a well-formed Workflow Context `{repository, number, ts}`
into the offer message's metadata and decoding it back yields the same
context, and the encoded metadata carries the event-type discriminator
string `"approve_offer"` alongside the context fields. -/
theorem c8_codec_roundtrip (c : WorkflowCtx) :
    decodeCtx (encodeCtx c) = .ok c
      ∧ (encodeCtx c).event_type = "approve_offer" :=
  ⟨rfl, rfl⟩

/-- C6: the rendered diff block holds exactly the changed lines (first
character `+` or `-`): the first 8 followed by one ellipsis marker when
there are more than 8, all of them and no ellipsis marker otherwise, and
never anything but changed lines and the marker. -/
theorem c6_diff_truncation (t : String) :
    truncDiffLines t =
        (if (changedLines t).length > 8
          then (changedLines t).take 8 ++ ["..."] else changedLines t)
      ∧ ("..." ∈ truncDiffLines t ↔ 8 < (changedLines t).length)
      ∧ (∀ l ∈ truncDiffLines t, l = "..." ∨ l ∈ changedLines t) := by
  have hdots : "..." ∉ changedLines t := by
    intro hmem
    have := (List.mem_filter.mp hmem).2
    simp [isChangedLine] at this
  refine ⟨rfl, ?_, ?_⟩
  · unfold truncDiffLines
    by_cases h : (changedLines t).length > 8
    · simp [h]
    · simp [h, hdots]
  · intro l hl
    unfold truncDiffLines at hl
    by_cases h : (changedLines t).length > 8
    · simp [h] at hl
      rcases hl with hl | hl
      · exact Or.inr (List.take_subset _ _ hl)
      · exact Or.inl hl
    · simp [h] at hl
      exact Or.inr hl

/-- C6 witness: a changed line of a concrete diff is accounted for. -/
theorem c6_witness : ("+x" = "..." ∨ "+x" ∈ changedLines "+x\ny\n-z") :=
  (c6_diff_truncation "+x\ny\n-z").2.2 "+x" (by decide)

/-- Any successful anchored match of `pr_re` has `group(1)` equal to the
literal owner `athenianco/` followed by a nonempty run of non-`/`
characters. -/
theorem tryPrMatch_shape {l r : List Char} {m : PrMatch}
    (h : tryPrMatch l = some (m, r)) :
    ∃ restL : List Char, restL ≠ []
      ∧ (∀ c ∈ restL, c ≠ '/')
      ∧ m.repo = "athenianco/" ++ String.mk restL := by
  unfold tryPrMatch at h
  split at h
  · exact absurd h (by simp)
  next r1 _ =>
    dsimp only at h
    split at h
    · exact absurd h (by simp)
    next hne =>
      split at h
      · exact absurd h (by simp)
      next r2 _ =>
        split at h
        · exact absurd h (by simp)
        next =>
          have h1 := Option.some.inj h
          have h2 := congrArg Prod.fst h1
          dsimp only at h2
          refine ⟨r1.takeWhile (fun c => c ≠ '/'), ?_, ?_, ?_⟩
          · intro hnil
            rw [hnil] at hne
            simp at hne
          · intro c hc
            have := List.mem_takeWhile_imp hc
            simpa using this
          · rw [← h2]

/-- Matches found anywhere in the text keep the `group(1)` shape. -/
theorem findPrMatchesAux_shape :
    ∀ (fuel : Nat) (l : List Char) (m : PrMatch),
      m ∈ findPrMatchesAux fuel l →
        ∃ restL : List Char, restL ≠ []
          ∧ (∀ c ∈ restL, c ≠ '/')
          ∧ m.repo = "athenianco/" ++ String.mk restL := by
  intro fuel
  induction fuel with
  | zero =>
    intro l m h
    simp [findPrMatchesAux] at h
  | succ n ih =>
    intro l m h
    cases l with
    | nil => simp [findPrMatchesAux] at h
    | cons c rest =>
      unfold findPrMatchesAux at h
      cases htry : tryPrMatch (c :: rest) with
      | none =>
        rw [htry] at h
        exact ih rest m h
      | some pr =>
        rw [htry] at h
        rcases List.mem_cons.mp h with heq | hmem
        · subst heq
          exact tryPrMatch_shape htry
        · exact ih pr.2 m hmem

/-- C2: for every message text, the PR bot sends exactly one offer per
`pr_re` occurrence, in order, each with metadata encoding the repository
and number of that occurrence and a fallback text naming them, and
increments the offers-sent counter once per offer. -/
theorem c2_offers_per_link (text ts : String)
    (fetch : String → Nat → HttpResp) :
    (handle_pr_message text ts fetch).sentInc = (findPrMatches text).length
    ∧ (handle_pr_message text ts fetch).offers.length
        = (findPrMatches text).length
    ∧ List.Forall₂
        (fun (m : PrMatch) (o : OfferMsg) =>
          o.metadata = encodeCtx ⟨m.repo, m.number, ts⟩
            ∧ o.text = "Approve this PR? " ++ m.repo ++ "#"
                ++ toString m.number)
        (findPrMatches text) (handle_pr_message text ts fetch).offers := by
  have hmap : ∀ ms : List PrMatch,
      List.Forall₂
        (fun (m : PrMatch) (o : OfferMsg) =>
          o.metadata = encodeCtx ⟨m.repo, m.number, ts⟩
            ∧ o.text = "Approve this PR? " ++ m.repo ++ "#"
                ++ toString m.number)
        ms (ms.map (mkOffer ts fetch)) := by
    intro ms
    induction ms with
    | nil => exact List.Forall₂.nil
    | cons a l ihl => exact List.Forall₂.cons ⟨rfl, rfl⟩ ihl
  unfold handle_pr_message message_url
  by_cases h : (findPrMatches text).isEmpty
  · have hnil : findPrMatches text = [] := by
      cases hl : findPrMatches text with
      | nil => rfl
      | cons a l => rw [hl] at h; simp at h
    simp [hnil]
  · rw [if_neg (by simpa using h)]
    exact ⟨rfl, List.length_map _ _, hmap _⟩

/-- C2 sanity at a concrete input (spec end-to-end example 1): a single
offer for `athenianco/foo#42`. -/
theorem c2_example :
    (handle_pr_message
        "please check https://github.com/athenianco/foo/pull/42" "1.0"
        (fun _ _ => { ok := false, text := "" })).offers
      = [{ blocks :=
             [Block.sec "Approve this PR? *athenianco/foo#42*",
              Block.buttonActions "approve" "Approve"],
           text := "Approve this PR? athenianco/foo#42",
           metadata := encodeCtx ⟨"athenianco/foo", 42, "1.0"⟩ }] := by
  decide

/-- C10: every offer the PR bot produces references a repository whose
owner is exactly `athenianco`: the encoded `repository` field is the
literal `athenianco/` followed by a nonempty slash-free remainder, so a
link under any other owner never yields an offer. -/
theorem c10_owner_athenianco (text ts : String)
    (fetch : String → Nat → HttpResp) (o : OfferMsg)
    (ho : o ∈ (handle_pr_message text ts fetch).offers) :
    ∃ rest : String, rest ≠ ""
      ∧ (∀ c ∈ rest.data, c ≠ '/')
      ∧ o.metadata.event_payload.getV "repository"
          = .ok (.vstr ("athenianco/" ++ rest)) := by
  have hoff : o ∈ (findPrMatches text).map (mkOffer ts fetch) := by
    unfold handle_pr_message at ho
    by_cases h : (findPrMatches text).isEmpty
    · simp [h] at ho
    · simpa [h, message_url] using ho
  rcases List.mem_map.mp hoff with ⟨m, hm, rfl⟩
  rcases findPrMatchesAux_shape _ _ m hm with ⟨restL, hne, hnoslash, hrepo⟩
  refine ⟨String.mk restL, ?_, ?_, ?_⟩
  · intro hempty
    apply hne
    have : (String.mk restL).data = ("" : String).data := by rw [hempty]
    simpa using this
  · simpa using hnoslash
  · show (encodeCtx ⟨m.repo, m.number, ts⟩).event_payload.getV "repository"
        = .ok (.vstr ("athenianco/" ++ String.mk restL))
    rw [← hrepo]
    rfl

/-- C10 witness: the offer produced for a concrete athenianco link. -/
theorem c10_witness :
    ∃ rest : String, rest ≠ ""
      ∧ (∀ c ∈ rest.data, c ≠ '/')
      ∧ ({ blocks :=
             [Block.sec "Approve this PR? *athenianco/foo#42*",
              Block.buttonActions "approve" "Approve"],
           text := "Approve this PR? athenianco/foo#42",
           metadata :=
             encodeCtx ⟨"athenianco/foo", 42, "1.0"⟩ } :
            OfferMsg).metadata.event_payload.getV "repository"
          = .ok (.vstr ("athenianco/" ++ rest)) :=
  c10_owner_athenianco
    "please check https://github.com/athenianco/foo/pull/42" "1.0"
    (fun _ _ => { ok := false, text := "" }) _ (by decide)

/-- C1, code behavior at the failing inputs: a callback whose message has
no metadata, or an empty event payload, makes `action_approve` raise a
`KeyError` that escapes the handler — no failure reply is sent, contrary
to the claim. -/
theorem c1_decode_failure_escapes :
    (action_approve
        { message := { metadata := none, ts := "2.0" },
          channelId := "C01", userId := "U01" }
        { getSecret := fun _ => .ok "tok",
          postReview := .ok { ok := true, text := "" } })
      = .error (.keyError "metadata")
    ∧ (action_approve
        { message := { metadata := some ⟨"approve_offer", []⟩, ts := "2.0" },
          channelId := "C01", userId := "U01" }
        { getSecret := fun _ => .ok "tok",
          postReview := .ok { ok := true, text := "" } })
      = .error (.keyError "repository") :=
  ⟨rfl, rfl⟩

/-- C3: when the approval fails (an exception from credential resolution
or the POST, or a non-success status), the handler does not increment the
actions-completed counter, does not delete the offer message, and sends
one two-block failure reply quoting `repository#number` and the failure
detail. -/
theorem c3_failure_effects (c : WorkflowCtx) (chan msgTs uid : String)
    (env : ApproveEnv) (d : String)
    (hfail : approveFailDetail
        { message := { metadata := some (encodeCtx c), ts := msgTs },
          channelId := chan, userId := uid } env = some d) :
    action_approve
        { message := { metadata := some (encodeCtx c), ts := msgTs },
          channelId := chan, userId := uid } env
      = .ok { replies :=
                [{ blocks :=
                     [Block.sec ("Failed to approve *" ++ c.repository
                        ++ "#" ++ toString c.number ++ "*:"),
                      Block.secPlain d],
                   text := "Failed to approve *" ++ c.repository ++ "#"
                     ++ toString c.number ++ "*" }],
              reactions := [], deletions := [], approvedInc := 0 } := by
  unfold approveFailDetail at hfail
  dsimp only at hfail
  unfold action_approve approveTry
  cases hsec : env.getSecret ("github_token_" ++ uid) with
  | error e =>
    rw [hsec] at hfail
    simp only [Option.some.injEq] at hfail
    subst hfail
    simp [hsec, failReply_encode, Except.bind, bind, encodeCtx, Dict.getV]
  | ok tok =>
    rw [hsec] at hfail
    cases hpost : env.postReview with
    | error e =>
      rw [hpost] at hfail
      simp only [Option.some.injEq] at hfail
      subst hfail
      simp [hsec, hpost, failReply_encode, Except.bind, bind, encodeCtx,
        Dict.getV]
    | ok r =>
      rw [hpost] at hfail
      dsimp only at hfail
      by_cases hok : r.ok = true
      · rw [if_pos hok] at hfail
        exact absurd hfail (by simp)
      · rw [if_neg hok] at hfail
        simp only [Option.some.injEq] at hfail
        subst hfail
        have hok' : r.ok = false := by simpa using hok
        simp [hsec, hpost, hok', failReply_encode, Except.bind, bind,
          encodeCtx, Dict.getV]

/-- C3 witness: a concrete failed approval (non-success POST status). -/
theorem c3_witness :
    action_approve
        { message := { metadata := some (encodeCtx ⟨"athenianco/foo", 42, "1.0"⟩),
                       ts := "2.0" },
          channelId := "C01", userId := "U01" }
        { getSecret := fun _ => .ok "tok",
          postReview := .ok { ok := false, text := "403: no review" } }
      = .ok { replies :=
                [{ blocks :=
                     [Block.sec "Failed to approve *athenianco/foo#42*:",
                      Block.secPlain "403: no review"],
                   text := "Failed to approve *athenianco/foo#42*" }],
              reactions := [], deletions := [], approvedInc := 0 } :=
  c3_failure_effects ⟨"athenianco/foo", 42, "1.0"⟩ "C01" "2.0" "U01"
    { getSecret := fun _ => .ok "tok",
      postReview := .ok { ok := false, text := "403: no review" } }
    "403: no review" (by decide)

/-- C4: when the approval POST succeeds, the handler sends no text reply
and performs exactly two side effects — it adds the fixed reaction to the
original triggering message (the `ts` stored in the Workflow Context) and
deletes the offer message — and increments the actions-completed counter
exactly once. -/
theorem c4_success_effects (c : WorkflowCtx) (chan msgTs uid tok : String)
    (env : ApproveEnv) (r : HttpResp)
    (hsec : env.getSecret ("github_token_" ++ uid) = .ok tok)
    (hpost : env.postReview = .ok r) (hok : r.ok = true) :
    action_approve
        { message := { metadata := some (encodeCtx c), ts := msgTs },
          channelId := chan, userId := uid } env
      = .ok { replies := [],
              reactions := [(chan, c.ts, "heavy_check_mark")],
              deletions := [(chan, msgTs)],
              approvedInc := 1 } := by
  unfold action_approve approveTry
  simp [hsec, hpost, hok, Except.bind, bind, encodeCtx, Dict.getV, PyVal.fmt]

/-- C4 witness: a concrete successful approval. -/
theorem c4_witness :
    action_approve
        { message := { metadata := some (encodeCtx ⟨"athenianco/foo", 42, "1.0"⟩),
                       ts := "2.0" },
          channelId := "C01", userId := "U01" }
        { getSecret := fun _ => .ok "tok",
          postReview := .ok { ok := true, text := "" } }
      = .ok { replies := [],
              reactions := [("C01", "1.0", "heavy_check_mark")],
              deletions := [("C01", "2.0")],
              approvedInc := 1 } :=
  c4_success_effects ⟨"athenianco/foo", 42, "1.0"⟩ "C01" "2.0" "U01" "tok"
    { getSecret := fun _ => .ok "tok",
      postReview := .ok { ok := true, text := "" } }
    { ok := true, text := "" } rfl rfl rfl

/-- C7: an exception raised during credential resolution or the approval
POST is caught and converted into a failure reply whose plain-text block
carries the exception's type name and message; the handler returns
normally (the decode of the well-formed context succeeded, and nothing on
the write path propagates). -/
theorem c7_exception_caught (c : WorkflowCtx) (chan msgTs uid : String)
    (env : ApproveEnv) (e : PyExc)
    (h : env.getSecret ("github_token_" ++ uid) = .error e
      ∨ ∃ tok, env.getSecret ("github_token_" ++ uid) = .ok tok
          ∧ env.postReview = .error e) :
    action_approve
        { message := { metadata := some (encodeCtx c), ts := msgTs },
          channelId := chan, userId := uid } env
      = .ok { replies :=
                [{ blocks :=
                     [Block.sec ("Failed to approve *" ++ c.repository
                        ++ "#" ++ toString c.number ++ "*:"),
                      Block.secPlain e.text],
                   text := "Failed to approve *" ++ c.repository ++ "#"
                     ++ toString c.number ++ "*" }],
              reactions := [], deletions := [], approvedInc := 0 } := by
  unfold action_approve approveTry
  rcases h with hsec | ⟨tok, hsec, hpost⟩
  · simp [hsec, failReply_encode, Except.bind, bind, encodeCtx, Dict.getV]
  · simp [hsec, hpost, failReply_encode, Except.bind, bind, encodeCtx,
      Dict.getV]

/-- C7 witness: a concrete exception during credential resolution. -/
theorem c7_witness :
    action_approve
        { message := { metadata := some (encodeCtx ⟨"athenianco/foo", 42, "1.0"⟩),
                       ts := "2.0" },
          channelId := "C01", userId := "U01" }
        { getSecret := fun _ => .error (.exc "NotFound" "secret missing"),
          postReview := .ok { ok := true, text := "" } }
      = .ok { replies :=
                [{ blocks :=
                     [Block.sec "Failed to approve *athenianco/foo#42*:",
                      Block.secPlain "NotFound: secret missing"],
                   text := "Failed to approve *athenianco/foo#42*" }],
              reactions := [], deletions := [], approvedInc := 0 } :=
  c7_exception_caught ⟨"athenianco/foo", 42, "1.0"⟩ "C01" "2.0" "U01"
    { getSecret := fun _ => .error (.exc "NotFound" "secret missing"),
      postReview := .ok { ok := true, text := "" } }
    (.exc "NotFound" "secret missing") (Or.inl rfl)

/-- C5 counterexample: for an empty result set (M = 0) the code still
sends one (header-only) message, while ceil(0/10) = 0 — the claimed
message count `ceil(M/10)` fails at M = 0. -/
theorem c5_cex_empty_result :
    (report_api_performance "api" "1.0" none
        (fun _ => { ok := true, text := "", data := [] })).msgs.length = 1
      ∧ ((0 : Nat) + 9) / 10 = 0 := by
  constructor
  · rfl
  · rfl

/-- The report flow on a success response, reduced to its message list. -/
theorem report_success_eq (text ts : String) (threadTs : Option String)
    (respText : String) (data : List PerfItem)
    (hapi : strContains text "api" = true) :
    report_api_performance text ts threadTs
        (fun _ => { ok := true, text := respText, data := data })
      = { queries := [{ statsPeriod := extractStatsPeriod text, limit := 20 }],
          msgs :=
            { blocks :=
                [Block.sec (perfHeaderText (extractStatsPeriod text) 20),
                 Block.divider,
                 Block.fieldsSec ((data.map mkPerfField).take 10)],
              text := perfHeaderText (extractStatsPeriod text) 20,
              thread_ts := threadTs.getD ts }
            :: (List.range' 1 ((data.length + 9) / 10 - 1)).map
                (fun i =>
                  { blocks :=
                      [Block.fieldsSec
                         (((data.map mkPerfField).drop (i * 10)).take 10)],
                    text := "(chunk " ++ toString i ++ ")",
                    thread_ts := threadTs.getD ts }),
          reportsInc := 1 } := by
  unfold report_api_performance
  rw [hapi]
  rw [if_neg (by simp)]
  dsimp only
  rw [List.length_map]
  rw [if_neg (by simp)]

/-- C5 (amended): for a nonempty result set of size M delivered with a
success status, the report flow emits exactly `ceil(M/10)` messages, the
first combining the header (time window, sort key, limit) with the first
`min(M,10)` records, each later message `i` carrying records
`[10i, 10i+10)` under the text `(chunk i)`, and all addressed to the
triggering message's reply thread; the original claim's count fails only
at M = 0, where one header-only message is still sent. -/
theorem c5_pagination (text ts : String) (threadTs : Option String)
    (respText : String) (data : List PerfItem)
    (hapi : strContains text "api" = true) (hne : data ≠ []) :
    (report_api_performance text ts threadTs
        (fun _ => { ok := true, text := respText, data := data })).msgs.length
      = (data.length + 9) / 10
    ∧ (∀ m ∈ (report_api_performance text ts threadTs
          (fun _ => { ok := true, text := respText, data := data })).msgs,
        m.thread_ts = threadTs.getD ts)
    ∧ (report_api_performance text ts threadTs
          (fun _ => { ok := true, text := respText, data := data })).msgs.head?
        = some { blocks :=
                   [Block.sec (perfHeaderText (extractStatsPeriod text) 20),
                    Block.divider,
                    Block.fieldsSec ((data.map mkPerfField).take 10)],
                 text := perfHeaderText (extractStatsPeriod text) 20,
                 thread_ts := threadTs.getD ts }
    ∧ ∀ i : Nat,
        i + 1 < (report_api_performance text ts threadTs
          (fun _ => { ok := true, text := respText, data := data })).msgs.length →
        (report_api_performance text ts threadTs
            (fun _ => { ok := true, text := respText, data := data })).msgs.get?
            (i + 1)
          = some { blocks :=
                     [Block.fieldsSec
                        (((data.map mkPerfField).drop ((i + 1) * 10)).take 10)],
                   text := "(chunk " ++ toString (i + 1) ++ ")",
                   thread_ts := threadTs.getD ts } := by
  have hM : 1 ≤ (data.length + 9) / 10 := by
    have h1 : 1 ≤ data.length := by
      cases data with
      | nil => exact absurd rfl hne
      | cons a l => simp
    have := (Nat.one_le_div_iff (by omega : 0 < 10)).mpr
      (by omega : 10 ≤ data.length + 9)
    exact this
  rw [report_success_eq text ts threadTs respText data hapi]
  refine ⟨?_, ?_, rfl, ?_⟩
  · simp only [List.length_cons, List.length_map, List.length_range']
    omega
  · intro m hm
    rcases List.mem_cons.mp hm with rfl | hm
    · rfl
    · rcases List.mem_map.mp hm with ⟨j, _, rfl⟩
      rfl
  · intro i hlen
    simp only [List.length_cons, List.length_map, List.length_range'] at hlen
    have hi : i < (data.length + 9) / 10 - 1 := by omega
    rw [List.get?_cons_succ, List.get?_map, List.get?_range' 1 1 hi,
      show 1 + 1 * i = i + 1 from by omega]
    rfl

/-- C5 witness: eleven records produce two messages. -/
theorem c5_witness :
    (report_api_performance "api" "1.0" none
        (fun _ => { ok := true, text := "",
                    data := List.replicate 11
                      { transaction := "/v1/x", p50 := ⟨1500, 0⟩,
                        p95 := ⟨2500, 0⟩, failure_rate := ⟨1, 2⟩,
                        count_unique := ⟨3, 0⟩, count := ⟨7, 0⟩ } })).msgs.length
      = ((List.replicate 11
            { transaction := "/v1/x", p50 := ⟨1500, 0⟩,
              p95 := ⟨2500, 0⟩, failure_rate := ⟨1, 2⟩,
              count_unique := ⟨3, 0⟩, count := ⟨7, 0⟩ } : List PerfItem).length
          + 9) / 10 :=
  (c5_pagination "api" "1.0" none ""
    (List.replicate 11
      { transaction := "/v1/x", p50 := ⟨1500, 0⟩, p95 := ⟨2500, 0⟩,
        failure_rate := ⟨1, 2⟩, count_unique := ⟨3, 0⟩, count := ⟨7, 0⟩ })
    (by decide) (by decide)).1

/-- The queries the report handler issues, for any response: one when the
text contains `api`, none otherwise. -/
theorem report_queries (text ts : String) (threadTs : Option String)
    (query : PerfQuery → SentryResp) :
    (report_api_performance text ts threadTs query).queries
      = (if strContains text "api"
          then [{ statsPeriod := extractStatsPeriod text, limit := 20 }]
          else []) := by
  unfold report_api_performance
  by_cases h : strContains text "api"
  · rw [if_neg (by simp [h]), if_pos h]
    dsimp only
    by_cases h2 : (query ⟨extractStatsPeriod text, 20⟩).ok = false
    · rw [if_pos h2]
    · rw [if_neg h2]
  · rw [if_pos (by simpa using h), if_neg h]

/-- C9: the performance-report flow issues a query exactly when the
trigger phrase matches and the text contains the literal `api`; the query
carries the extracted time-window token (default `"24h"`) and limit 20 —
in particular `"are requests slow on the api?"` yields statsPeriod
`"24h"` and limit 20. -/
theorem c9_trigger_and_query (text ts : String) (threadTs : Option String)
    (query : PerfQuery → SentryResp) :
    (handle_sentry_message text ts threadTs query).queries
      = (if triggerMatches text && strContains text "api"
          then [{ statsPeriod := extractStatsPeriod text, limit := 20 }]
          else [])
    ∧ (handle_sentry_message "are requests slow on the api?" ts threadTs
          query).queries
      = [{ statsPeriod := "24h", limit := 20 }] := by
  have hgen : ∀ t : String,
      (handle_sentry_message t ts threadTs query).queries
        = (if triggerMatches t && strContains t "api"
            then [{ statsPeriod := extractStatsPeriod t, limit := 20 }]
            else []) := by
    intro t
    unfold handle_sentry_message
    by_cases h1 : triggerMatches t
    · rw [if_pos h1, report_queries]
      by_cases h2 : strContains t "api"
      · rw [if_pos h2, if_pos (by simp [h1, h2])]
      · rw [if_neg h2, if_neg (by simp [h2])]
    · rw [if_neg h1, if_neg (by simp [h1])]
  refine ⟨hgen text, ?_⟩
  rw [hgen "are requests slow on the api?"]
  rw [if_pos (by decide)]
  rw [show extractStatsPeriod "are requests slow on the api?" = "24h"
    from by decide]
